import Mathlib

/-!
Verification of the fastjsond C API layer (src/source/fastjsond/c/api.cpp,
api.h): a C wrapper around the simdjson engine.  The wrapper's own logic --
error-code mapping, the public message table, argument guards, the
thread-local slot rings that back derived values, document construction and
the forward-only iterators -- is embedded shallowly below.  The simdjson
engine itself is an external collaborator: its parse behaviour enters as an
explicit function argument, and its element model (`Elem` with the accessor
functions `get_object`, `get_array`, ...) follows simdjson's documented
`dom::element` semantics.  C pointers that may be null are `Option`s; a C
out-parameter becomes an `Option` component of the result (`none` = the call
did not write it), except where the prior cell content matters (the `doc`
out-parameter of `fj_parser_parse`), where the old content is threaded
through explicitly.  Machine integers index-arithmetic is `Nat` with `% 256`
where the source wraps.
-/

namespace Fastjsond

/-! ### Engine error codes (simdjson `error_code`)

The engine's enumerators, in declaration order starting at `SUCCESS = 0`,
exactly the ones named by the `map_error` switch in api.cpp. -/

def SUCCESS : Nat := 0
def CAPACITY : Nat := 1
def MEMALLOC : Nat := 2
def TAPE_ERROR : Nat := 3
def DEPTH_ERROR : Nat := 4
def STRING_ERROR : Nat := 5
def T_ATOM_ERROR : Nat := 6
def F_ATOM_ERROR : Nat := 7
def N_ATOM_ERROR : Nat := 8
def NUMBER_ERROR : Nat := 9
def UTF8_ERROR : Nat := 10
def UNINITIALIZED : Nat := 11
def EMPTY : Nat := 12
def UNESCAPED_CHARS : Nat := 13
def UNCLOSED_STRING : Nat := 14
def UNSUPPORTED_ARCHITECTURE : Nat := 15
def INCORRECT_TYPE : Nat := 16
def NUMBER_OUT_OF_RANGE : Nat := 17
def INDEX_OUT_OF_BOUNDS : Nat := 18
def NO_SUCH_FIELD : Nat := 19
def IO_ERROR : Nat := 20
def INVALID_JSON_POINTER : Nat := 21
def INVALID_URI_FRAGMENT : Nat := 22
def UNEXPECTED_ERROR : Nat := 23
def PARSER_IN_USE : Nat := 24
def OUT_OF_ORDER_ITERATION : Nat := 25
def INSUFFICIENT_PADDING : Nat := 26
def INCOMPLETE_ARRAY_OR_OBJECT : Nat := 27
def SCALAR_DOCUMENT_AS_VALUE : Nat := 28
def OUT_OF_BOUNDS : Nat := 29
def TRAILING_CONTENT : Nat := 30

/-- The engine error codes named in the `map_error` switch (`SUCCESS = 0`
up to `TRAILING_CONTENT = 30`). -/
def engineCodes : List Nat := List.range 31

/-! ### Public error codes (api.h `fj_error`)

`FJ_SUCCESS = 0`, then each enumerator one more than the previous, and
`FJ_ERROR_UNKNOWN = 255`. -/

def FJ_SUCCESS : Nat := 0
def FJ_ERROR_CAPACITY : Nat := 1
def FJ_ERROR_MEMALLOC : Nat := 2
def FJ_ERROR_TAPE_ERROR : Nat := 3
def FJ_ERROR_DEPTH_ERROR : Nat := 4
def FJ_ERROR_STRING_ERROR : Nat := 5
def FJ_ERROR_T_ATOM_ERROR : Nat := 6
def FJ_ERROR_F_ATOM_ERROR : Nat := 7
def FJ_ERROR_N_ATOM_ERROR : Nat := 8
def FJ_ERROR_NUMBER_ERROR : Nat := 9
def FJ_ERROR_UTF8_ERROR : Nat := 10
def FJ_ERROR_UNINITIALIZED : Nat := 11
def FJ_ERROR_EMPTY : Nat := 12
def FJ_ERROR_UNESCAPED_CHARS : Nat := 13
def FJ_ERROR_UNCLOSED_STRING : Nat := 14
def FJ_ERROR_UNSUPPORTED_ARCH : Nat := 15
def FJ_ERROR_INCORRECT_TYPE : Nat := 16
def FJ_ERROR_NUMBER_OUT_OF_RANGE : Nat := 17
def FJ_ERROR_INDEX_OUT_OF_BOUNDS : Nat := 18
def FJ_ERROR_NO_SUCH_FIELD : Nat := 19
def FJ_ERROR_IO_ERROR : Nat := 20
def FJ_ERROR_INVALID_JSON_POINTER : Nat := 21
def FJ_ERROR_INVALID_URI_FRAGMENT : Nat := 22
def FJ_ERROR_UNEXPECTED_ERROR : Nat := 23
def FJ_ERROR_PARSER_IN_USE : Nat := 24
def FJ_ERROR_OUT_OF_ORDER_ITERATION : Nat := 25
def FJ_ERROR_INSUFFICIENT_PADDING : Nat := 26
def FJ_ERROR_INCOMPLETE_ARRAY_OR_OBJECT : Nat := 27
def FJ_ERROR_SCALAR_DOCUMENT_AS_VALUE : Nat := 28
def FJ_ERROR_OUT_OF_BOUNDS : Nat := 29
def FJ_ERROR_TRAILING_CONTENT : Nat := 30
def FJ_ERROR_UNKNOWN : Nat := 255

/-- The values of the public `fj_error` enumeration: `0` .. `30` and `255`. -/
def fjErrorKinds : List Nat := List.range 31 ++ [FJ_ERROR_UNKNOWN]

/-- api.cpp `map_error`: the switch over the engine error code, one `else if`
per `case`, the trailing branch being the switch's `default:`. -/
def map_error (err : Nat) : Nat :=
  if err = SUCCESS then FJ_SUCCESS
  else if err = CAPACITY then FJ_ERROR_CAPACITY
  else if err = MEMALLOC then FJ_ERROR_MEMALLOC
  else if err = TAPE_ERROR then FJ_ERROR_TAPE_ERROR
  else if err = DEPTH_ERROR then FJ_ERROR_DEPTH_ERROR
  else if err = STRING_ERROR then FJ_ERROR_STRING_ERROR
  else if err = T_ATOM_ERROR then FJ_ERROR_T_ATOM_ERROR
  else if err = F_ATOM_ERROR then FJ_ERROR_F_ATOM_ERROR
  else if err = N_ATOM_ERROR then FJ_ERROR_N_ATOM_ERROR
  else if err = NUMBER_ERROR then FJ_ERROR_NUMBER_ERROR
  else if err = UTF8_ERROR then FJ_ERROR_UTF8_ERROR
  else if err = UNINITIALIZED then FJ_ERROR_UNINITIALIZED
  else if err = EMPTY then FJ_ERROR_EMPTY
  else if err = UNESCAPED_CHARS then FJ_ERROR_UNESCAPED_CHARS
  else if err = UNCLOSED_STRING then FJ_ERROR_UNCLOSED_STRING
  else if err = UNSUPPORTED_ARCHITECTURE then FJ_ERROR_UNSUPPORTED_ARCH
  else if err = INCORRECT_TYPE then FJ_ERROR_INCORRECT_TYPE
  else if err = NUMBER_OUT_OF_RANGE then FJ_ERROR_NUMBER_OUT_OF_RANGE
  else if err = INDEX_OUT_OF_BOUNDS then FJ_ERROR_INDEX_OUT_OF_BOUNDS
  else if err = NO_SUCH_FIELD then FJ_ERROR_NO_SUCH_FIELD
  else if err = IO_ERROR then FJ_ERROR_IO_ERROR
  else if err = INVALID_JSON_POINTER then FJ_ERROR_INVALID_JSON_POINTER
  else if err = INVALID_URI_FRAGMENT then FJ_ERROR_INVALID_URI_FRAGMENT
  else if err = UNEXPECTED_ERROR then FJ_ERROR_UNEXPECTED_ERROR
  else if err = PARSER_IN_USE then FJ_ERROR_PARSER_IN_USE
  else if err = OUT_OF_ORDER_ITERATION then FJ_ERROR_OUT_OF_ORDER_ITERATION
  else if err = INSUFFICIENT_PADDING then FJ_ERROR_INSUFFICIENT_PADDING
  else if err = INCOMPLETE_ARRAY_OR_OBJECT then FJ_ERROR_INCOMPLETE_ARRAY_OR_OBJECT
  else if err = SCALAR_DOCUMENT_AS_VALUE then FJ_ERROR_SCALAR_DOCUMENT_AS_VALUE
  else if err = OUT_OF_BOUNDS then FJ_ERROR_OUT_OF_BOUNDS
  else if err = TRAILING_CONTENT then FJ_ERROR_TRAILING_CONTENT
  else FJ_ERROR_UNKNOWN

/-! ### Element type codes (simdjson `dom::element_type`)

The engine's element tags are character-valued: `'n' '[' '{' 'l' 'u' 'd'
'"' 't'`. -/

def NULL_VALUE : Nat := 110
def BOOL : Nat := 116
def INT64 : Nat := 108
def UINT64 : Nat := 117
def DOUBLE : Nat := 100
def STRING : Nat := 34
def ARRAY : Nat := 91
def OBJECT : Nat := 123

/-- The engine element-type codes named in the `map_type` switch. -/
def elementTypeCodes : List Nat :=
  [NULL_VALUE, BOOL, INT64, UINT64, DOUBLE, STRING, ARRAY, OBJECT]

/-! ### Public value types (api.h `fj_type`) -/

def FJ_TYPE_NULL : Nat := 0
def FJ_TYPE_BOOL : Nat := 1
def FJ_TYPE_INT64 : Nat := 2
def FJ_TYPE_UINT64 : Nat := 3
def FJ_TYPE_DOUBLE : Nat := 4
def FJ_TYPE_STRING : Nat := 5
def FJ_TYPE_ARRAY : Nat := 6
def FJ_TYPE_OBJECT : Nat := 7

/-- api.cpp `map_type`: the switch over the engine element type; the trailing
branch is the switch's `default: return FJ_TYPE_NULL`. -/
def map_type (t : Nat) : Nat :=
  if t = NULL_VALUE then FJ_TYPE_NULL
  else if t = BOOL then FJ_TYPE_BOOL
  else if t = INT64 then FJ_TYPE_INT64
  else if t = UINT64 then FJ_TYPE_UINT64
  else if t = DOUBLE then FJ_TYPE_DOUBLE
  else if t = STRING then FJ_TYPE_STRING
  else if t = ARRAY then FJ_TYPE_ARRAY
  else if t = OBJECT then FJ_TYPE_OBJECT
  else FJ_TYPE_NULL

/-! ### The public message table (api.cpp `fj_error_message`) -/

/-- The static `messages` array of `fj_error_message`, in source order:
entry `k` is the message of public error kind `k`, `0 ≤ k ≤ 30`. -/
def messages : List String :=
  [ "Success",
    "Document too large",
    "Memory allocation failed",
    "Internal tape error",
    "Document too deep",
    "Invalid string",
    "Invalid 'true' atom",
    "Invalid 'false' atom",
    "Invalid 'null' atom",
    "Invalid number",
    "Invalid UTF-8 encoding",
    "Parser not initialized",
    "Empty input",
    "Unescaped control characters in string",
    "Unclosed string",
    "Unsupported architecture",
    "Incorrect type",
    "Number out of range",
    "Array index out of bounds",
    "Object field not found",
    "I/O error",
    "Invalid JSON pointer",
    "Invalid URI fragment",
    "Unexpected error",
    "Parser already in use",
    "Out of order iteration",
    "Insufficient padding",
    "Incomplete array or object",
    "Scalar document as value",
    "Out of bounds",
    "Trailing content after JSON" ]

/-- api.cpp `fj_error_message`.  The source indexes `messages[err]` after the
guard has ensured `err ≤ 30`, which is within the table; the `getD` default
is unreachable and only makes the lookup total. -/
def fj_error_message (err : Nat) : String :=
  if err = FJ_ERROR_UNKNOWN ∨ err > FJ_ERROR_TRAILING_CONTENT then "Unknown error"
  else (messages.get? err).getD "Unknown error"

/-! ### Basic facts about the two switches -/

theorem map_error_below (e : Nat) (he : e < 31) : map_error e = e := by
  have h : ∀ x < 31, map_error x = x := by decide
  exact h e he

theorem map_error_above (e : Nat) (he : 31 ≤ e) : map_error e = FJ_ERROR_UNKNOWN := by
  obtain ⟨m, rfl⟩ : ∃ m, e = m + 31 := ⟨e - 31, by omega⟩
  rfl

theorem map_error_eq_success_iff (e : Nat) : map_error e = FJ_SUCCESS ↔ e = SUCCESS := by
  by_cases he : e < 31
  · rw [map_error_below e he]
    exact Iff.rfl
  · rw [map_error_above e (by omega)]
    constructor
    · intro h
      exact absurd h (by decide)
    · intro h
      exact absurd h (by simp [SUCCESS]; omega)

theorem map_type_unknown (t : Nat) (ht : t ∉ elementTypeCodes) : map_type t = FJ_TYPE_NULL := by
  by_cases hlt : t < 124
  · have h : ∀ x < 124, x ∉ elementTypeCodes → map_type x = FJ_TYPE_NULL := by decide
    exact h t hlt ht
  · obtain ⟨m, rfl⟩ : ∃ m, t = m + 124 := ⟨t - 124, by omega⟩
    rfl

/-! ### The engine's element model (simdjson `dom::element`)

The engine is an external collaborator; its parsed tree is modelled as the
JSON tree `Elem`, and the `dom::element` accessors the wrapper calls are
given their documented simdjson behaviour.  A `double` payload is not
modelled (floating point); no claim extracts one. -/

inductive Elem where
  | null
  | bool (b : Bool)
  | int64 (i : Int)
  | uint64 (n : Nat)
  | double
  | string (s : String)
  | arr (xs : List Elem)
  | obj (fs : List (String × Elem))

/-- simdjson `dom::element::type()`: the character-valued tag. -/
def Elem.typeCode : Elem → Nat
  | .null => NULL_VALUE
  | .bool _ => BOOL
  | .int64 _ => INT64
  | .uint64 _ => UINT64
  | .double => DOUBLE
  | .string _ => STRING
  | .arr _ => ARRAY
  | .obj _ => OBJECT

/-- simdjson `element::get_bool()`. -/
def Elem.get_bool : Elem → Except Nat Bool
  | .bool b => .ok b
  | _ => .error INCORRECT_TYPE

/-- simdjson `element::get_int64()`: an unsigned payload that fits is
converted, one that does not fit is `NUMBER_OUT_OF_RANGE`. -/
def Elem.get_int64 : Elem → Except Nat Int
  | .int64 i => .ok i
  | .uint64 n => if n < 2 ^ 63 then .ok (n : Int) else .error NUMBER_OUT_OF_RANGE
  | _ => .error INCORRECT_TYPE

/-- simdjson `element::get_uint64()`: a non-negative signed payload is
converted, a negative one is `NUMBER_OUT_OF_RANGE`. -/
def Elem.get_uint64 : Elem → Except Nat Nat
  | .uint64 n => .ok n
  | .int64 i => if 0 ≤ i then .ok i.toNat else .error NUMBER_OUT_OF_RANGE
  | _ => .error INCORRECT_TYPE

/-- simdjson `element::get_double()` (payload not modelled). -/
def Elem.get_double : Elem → Except Nat Unit
  | .int64 _ => .ok ()
  | .uint64 _ => .ok ()
  | .double => .ok ()
  | _ => .error INCORRECT_TYPE

/-- simdjson `element::get_string()`: the zero-copy view, modelled as the
string itself. -/
def Elem.get_string : Elem → Except Nat String
  | .string s => .ok s
  | _ => .error INCORRECT_TYPE

/-- simdjson `element::get_object()`. -/
def Elem.get_object : Elem → Except Nat (List (String × Elem))
  | .obj fs => .ok fs
  | _ => .error INCORRECT_TYPE

/-- simdjson `element::get_array()`. -/
def Elem.get_array : Elem → Except Nat (List Elem)
  | .arr xs => .ok xs
  | _ => .error INCORRECT_TYPE

/-- simdjson `dom::object::operator[]`: linear search, first matching key,
`NO_SUCH_FIELD` when absent. -/
def objLookup : List (String × Elem) → String → Except Nat Elem
  | [], _ => .error NO_SUCH_FIELD
  | (k, e) :: rest, key => if k = key then .ok e else objLookup rest key

/-- simdjson `dom::array::at(idx)`: the element, or `INDEX_OUT_OF_BOUNDS`. -/
def arrayAt (xs : List Elem) (idx : Nat) : Except Nat Elem :=
  match xs.get? idx with
  | some e => .ok e
  | none => .error INDEX_OUT_OF_BOUNDS

/-! ### The thread-local slot rings

Each of the five deriving functions in api.cpp declares its own
function-local `static thread_local dom::element stored_elements[256]` and
`static thread_local size_t stored_idx = 0`.  A `SlotPool` models one such
ring; `ThreadState` bundles the five rings of one thread, one field per
function (function-local statics are distinct objects). -/

structure SlotPool where
  slots : Fin 256 → Elem
  cursor : Fin 256

/-- A fresh ring: `stored_idx = 0`, the 256 cells default-constructed
(a default `dom::element` reads as null). -/
def SlotPool.init : SlotPool :=
  ⟨fun _ => Elem.null, ⟨0, by omega⟩⟩

/-- One derivation into a ring: `stored_idx = (stored_idx + 1) % 256;
stored_elements[stored_idx] = e;` and the address of that cell is handed
out.  Returns the updated ring and the written cell's index. -/
def SlotPool.store (p : SlotPool) (e : Elem) : SlotPool × Fin 256 :=
  let i : Fin 256 := ⟨(p.cursor.val + 1) % 256, Nat.mod_lt _ (by omega)⟩
  (⟨Function.update p.slots i e, i⟩, i)

/-- A sequence of derivations into one ring. -/
def SlotPool.storeMany (p : SlotPool) (es : List Elem) : SlotPool :=
  es.foldl (fun q e => (q.store e).1) p

/-- Which of the five function-local rings a cell belongs to. -/
inductive PoolId where
  | fieldSlots
  | fieldLenSlots
  | indexSlots
  | arrNextSlots
  | objNextSlots
deriving DecidableEq

structure ThreadState where
  getFieldPool : SlotPool
  getFieldLenPool : SlotPool
  getIndexPool : SlotPool
  arrNextPool : SlotPool
  objNextPool : SlotPool

def ThreadState.init : ThreadState :=
  ⟨SlotPool.init, SlotPool.init, SlotPool.init, SlotPool.init, SlotPool.init⟩

def ThreadState.pool (st : ThreadState) : PoolId → SlotPool
  | .fieldSlots => st.getFieldPool
  | .fieldLenSlots => st.getFieldLenPool
  | .indexSlots => st.getIndexPool
  | .arrNextSlots => st.arrNextPool
  | .objNextSlots => st.objNextPool

/-- One derivation through the ring `pid`: a store into that function's own
`stored_elements` array, the other four rings untouched.  Returns the new
thread state and the written cell's index. -/
def ThreadState.storeIn (st : ThreadState) (pid : PoolId) (e : Elem) : ThreadState × Fin 256 :=
  match pid with
  | .fieldSlots =>
    let p := st.getFieldPool.store e
    (⟨p.1, st.getFieldLenPool, st.getIndexPool, st.arrNextPool, st.objNextPool⟩, p.2)
  | .fieldLenSlots =>
    let p := st.getFieldLenPool.store e
    (⟨st.getFieldPool, p.1, st.getIndexPool, st.arrNextPool, st.objNextPool⟩, p.2)
  | .indexSlots =>
    let p := st.getIndexPool.store e
    (⟨st.getFieldPool, st.getFieldLenPool, p.1, st.arrNextPool, st.objNextPool⟩, p.2)
  | .arrNextSlots =>
    let p := st.arrNextPool.store e
    (⟨st.getFieldPool, st.getFieldLenPool, st.getIndexPool, p.1, st.objNextPool⟩, p.2)
  | .objNextSlots =>
    let p := st.objNextPool.store e
    (⟨st.getFieldPool, st.getFieldLenPool, st.getIndexPool, st.arrNextPool, p.1⟩, p.2)

/-! ### Documents and values (api.h `fj_document_s`, `fj_value_s`) -/

/-- api.cpp `struct fj_document_s`: the parsed root and the last-error
slot. -/
structure fj_document_s where
  root : Elem
  error : Nat

/-- What a `fj_value.impl` pointer points at: the root element inside a
document (`fj_document_root` hands out `&doc->root`), or a cell of one of
the thread's slot rings. -/
inductive ElemRef where
  | docRoot (d : fj_document_s)
  | cell (pid : PoolId) (i : Fin 256)

/-- Reading through a value's `impl` pointer in thread state `st`. -/
def derefElem (st : ThreadState) : ElemRef → Elem
  | .docRoot d => d.root
  | .cell pid i => (st.pool pid).slots i

/-- api.h `fj_value`: the `(impl, doc)` pointer pair; either pointer may be
null. -/
structure fj_value where
  impl : Option ElemRef
  doc : Option fj_document_s

/-! ### Parser and parse (api.cpp `fj_parser_s`, `fj_parser_parse`) -/

/-- What one engine `dom::parser::parse` call can do: return a
`simdjson_result` (an error code paired with a value), or throw. -/
inductive EngineOutcome where
  | res (code : Nat) (root : Elem)
  | thrown

/-- api.cpp `struct fj_parser_s`: owns the engine parser, here its
black-box parse behaviour on a byte buffer and length. -/
structure fj_parser_s where
  engine : List Nat → Nat → EngineOutcome

/-- api.cpp `fj_parser_parse`.  `docValid` is whether the `doc`
out-pointer is non-null; `oldDoc` is the cell's prior content, returned
unchanged when the call does not write it (the null-argument guard). -/
def fj_parser_parse (p : Option fj_parser_s) (json : Option (List Nat)) (len : Nat)
    (docValid : Bool) (oldDoc : Option fj_document_s) : Nat × Option fj_document_s :=
  match p, json, docValid with
  | some pp, some js, true =>
    match pp.engine js len with
    | .res code root =>
      if code ≠ SUCCESS then (map_error code, none)
      else (FJ_SUCCESS, some ⟨root, FJ_SUCCESS⟩)
    | .thrown => (FJ_ERROR_UNEXPECTED_ERROR, none)
  | _, _, _ => (FJ_ERROR_UNINITIALIZED, oldDoc)

/-- api.cpp `fj_parser_parse_padded`: delegates to `fj_parser_parse`. -/
def fj_parser_parse_padded (p : Option fj_parser_s) (json : Option (List Nat)) (len : Nat)
    (docValid : Bool) (oldDoc : Option fj_document_s) : Nat × Option fj_document_s :=
  fj_parser_parse p json len docValid oldDoc

/-- api.cpp `fj_document_root`: `v.impl = doc ? &doc->root : nullptr;
v.doc = doc`. -/
def fj_document_root (doc : Option fj_document_s) : fj_value :=
  ⟨doc.map ElemRef.docRoot, doc⟩

/-- api.cpp `fj_document_error`. -/
def fj_document_error (doc : Option fj_document_s) : Nat :=
  match doc with
  | some d => d.error
  | none => FJ_ERROR_UNINITIALIZED

/-! ### Value type and extraction (api.cpp) -/

/-- api.cpp `fj_value_type`. -/
def fj_value_type (st : ThreadState) (v : fj_value) : Nat :=
  match v.impl with
  | none => FJ_TYPE_NULL
  | some r => map_type (derefElem st r).typeCode

/-- api.cpp `fj_value_get_bool`; `outValid` is whether the out-pointer is
non-null, the written value is the `some` component. -/
def fj_value_get_bool (st : ThreadState) (v : fj_value) (outValid : Bool) :
    Nat × Option Bool :=
  match v.impl, outValid with
  | some r, true =>
    match (derefElem st r).get_bool with
    | .error e => (map_error e, none)
    | .ok b => (FJ_SUCCESS, some b)
  | _, _ => (FJ_ERROR_UNINITIALIZED, none)

/-- api.cpp `fj_value_get_int64`. -/
def fj_value_get_int64 (st : ThreadState) (v : fj_value) (outValid : Bool) :
    Nat × Option Int :=
  match v.impl, outValid with
  | some r, true =>
    match (derefElem st r).get_int64 with
    | .error e => (map_error e, none)
    | .ok i => (FJ_SUCCESS, some i)
  | _, _ => (FJ_ERROR_UNINITIALIZED, none)

/-- api.cpp `fj_value_get_uint64`. -/
def fj_value_get_uint64 (st : ThreadState) (v : fj_value) (outValid : Bool) :
    Nat × Option Nat :=
  match v.impl, outValid with
  | some r, true =>
    match (derefElem st r).get_uint64 with
    | .error e => (map_error e, none)
    | .ok n => (FJ_SUCCESS, some n)
  | _, _ => (FJ_ERROR_UNINITIALIZED, none)

/-- api.cpp `fj_value_get_double`. -/
def fj_value_get_double (st : ThreadState) (v : fj_value) (outValid : Bool) :
    Nat × Option Unit :=
  match v.impl, outValid with
  | some r, true =>
    match (derefElem st r).get_double with
    | .error e => (map_error e, none)
    | .ok u => (FJ_SUCCESS, some u)
  | _, _ => (FJ_ERROR_UNINITIALIZED, none)

/-- api.cpp `fj_value_get_string`: both out-pointers must be non-null; on
success the data/length pair of the view is written. -/
def fj_value_get_string (st : ThreadState) (v : fj_value) (outValid lenValid : Bool) :
    Nat × Option (String × Nat) :=
  match v.impl, outValid, lenValid with
  | some r, true, true =>
    match (derefElem st r).get_string with
    | .error e => (map_error e, none)
    | .ok s => (FJ_SUCCESS, some (s, s.length))
  | _, _, _ => (FJ_ERROR_UNINITIALIZED, none)

/-! ### Object and array access (api.cpp) -/

/-- api.cpp `fj_value_get_field`: on success the derived element is stored
in `fj_value_get_field`'s own thread-local ring, and the returned value
points at that cell and carries `v.doc`. -/
def fj_value_get_field (st : ThreadState) (v : fj_value) (key : Option String)
    (outValid : Bool) : ThreadState × Nat × Option fj_value :=
  match v.impl, key, outValid with
  | some r, some k, true =>
    match (derefElem st r).get_object with
    | .error e => (st, map_error e, none)
    | .ok fs =>
      match objLookup fs k with
      | .error e => (st, map_error e, none)
      | .ok fe =>
        let si := st.storeIn .fieldSlots fe
        (si.1, FJ_SUCCESS, some ⟨some (.cell .fieldSlots si.2), v.doc⟩)
  | _, _, _ => (st, FJ_ERROR_UNINITIALIZED, none)

/-- api.cpp `fj_value_get_field_len`: the key view is the first `keyLen`
characters of the key buffer; its own ring. -/
def fj_value_get_field_len (st : ThreadState) (v : fj_value) (key : Option String)
    (keyLen : Nat) (outValid : Bool) : ThreadState × Nat × Option fj_value :=
  match v.impl, key, outValid with
  | some r, some k, true =>
    match (derefElem st r).get_object with
    | .error e => (st, map_error e, none)
    | .ok fs =>
      match objLookup fs (k.take keyLen) with
      | .error e => (st, map_error e, none)
      | .ok fe =>
        let si := st.storeIn .fieldLenSlots fe
        (si.1, FJ_SUCCESS, some ⟨some (.cell .fieldLenSlots si.2), v.doc⟩)
  | _, _, _ => (st, FJ_ERROR_UNINITIALIZED, none)

/-- api.cpp `fj_value_has_field`: `!field_result.error()`, never failing. -/
def fj_value_has_field (st : ThreadState) (v : fj_value) (key : Option String) : Bool :=
  match v.impl, key with
  | some r, some k =>
    match (derefElem st r).get_object with
    | .error _ => false
    | .ok fs =>
      match objLookup fs k with
      | .error _ => false
      | .ok _ => true
  | _, _ => false

/-- api.cpp `fj_value_object_size`. -/
def fj_value_object_size (st : ThreadState) (v : fj_value) (outValid : Bool) :
    Nat × Option Nat :=
  match v.impl, outValid with
  | some r, true =>
    match (derefElem st r).get_object with
    | .error e => (map_error e, none)
    | .ok fs => (FJ_SUCCESS, some fs.length)
  | _, _ => (FJ_ERROR_UNINITIALIZED, none)

/-- api.cpp `fj_value_get_index`: its own ring. -/
def fj_value_get_index (st : ThreadState) (v : fj_value) (idx : Nat)
    (outValid : Bool) : ThreadState × Nat × Option fj_value :=
  match v.impl, outValid with
  | some r, true =>
    match (derefElem st r).get_array with
    | .error e => (st, map_error e, none)
    | .ok xs =>
      match arrayAt xs idx with
      | .error e => (st, map_error e, none)
      | .ok fe =>
        let si := st.storeIn .indexSlots fe
        (si.1, FJ_SUCCESS, some ⟨some (.cell .indexSlots si.2), v.doc⟩)
  | _, _ => (st, FJ_ERROR_UNINITIALIZED, none)

/-- api.cpp `fj_value_array_size`. -/
def fj_value_array_size (st : ThreadState) (v : fj_value) (outValid : Bool) :
    Nat × Option Nat :=
  match v.impl, outValid with
  | some r, true =>
    match (derefElem st r).get_array with
    | .error e => (map_error e, none)
    | .ok xs => (FJ_SUCCESS, some xs.length)
  | _, _ => (FJ_ERROR_UNINITIALIZED, none)

/-! ### Iterators (api.cpp) -/

/-- api.cpp `struct fj_array_iter_s`: the `(current, end)` cursor pair over
the array, modelled as the children not yet yielded. -/
structure fj_array_iter_s where
  remaining : List Elem

/-- api.cpp `struct fj_object_iter_s`. -/
structure fj_object_iter_s where
  remaining : List (String × Elem)

/-- api.cpp `fj_array_iter_new` (allocation assumed to succeed; the
`catch` branch returning `FJ_ERROR_MEMALLOC` is not modelled). -/
def fj_array_iter_new (st : ThreadState) (v : fj_value) (iterValid : Bool) :
    Nat × Option fj_array_iter_s :=
  match v.impl, iterValid with
  | some r, true =>
    match (derefElem st r).get_array with
    | .error e => (map_error e, none)
    | .ok xs => (FJ_SUCCESS, some ⟨xs⟩)
  | _, _ => (FJ_ERROR_UNINITIALIZED, none)

/-- api.cpp `fj_object_iter_new`. -/
def fj_object_iter_new (st : ThreadState) (v : fj_value) (iterValid : Bool) :
    Nat × Option fj_object_iter_s :=
  match v.impl, iterValid with
  | some r, true =>
    match (derefElem st r).get_object with
    | .error e => (map_error e, none)
    | .ok fs => (FJ_SUCCESS, some ⟨fs⟩)
  | _, _ => (FJ_ERROR_UNINITIALIZED, none)

/-- api.cpp `fj_array_iter_next`: stores the yielded element in its own
ring, sets `out->doc = nullptr`, advances the cursor, returns `true`;
at the end (or on a null argument) returns `false` without writing. -/
def fj_array_iter_next (st : ThreadState) (iter : Option fj_array_iter_s)
    (outValid : Bool) : ThreadState × Option fj_array_iter_s × Bool × Option fj_value :=
  match iter, outValid with
  | some it, true =>
    match it.remaining with
    | [] => (st, some it, false, none)
    | e :: rest =>
      let si := st.storeIn .arrNextSlots e
      (si.1, some ⟨rest⟩, true, some ⟨some (.cell .arrNextSlots si.2), none⟩)
  | _, _ => (st, iter, false, none)

/-- api.cpp `fj_object_iter_next`: also writes the key's zero-copy view
(data and length); `out->doc = nullptr` likewise. -/
def fj_object_iter_next (st : ThreadState) (iter : Option fj_object_iter_s)
    (keyValid keyLenValid valValid : Bool) :
    ThreadState × Option fj_object_iter_s × Bool × Option (String × Nat) × Option fj_value :=
  match iter, keyValid, keyLenValid, valValid with
  | some it, true, true, true =>
    match it.remaining with
    | [] => (st, some it, false, none, none)
    | (k, e) :: rest =>
      let si := st.storeIn .objNextSlots e
      (si.1, some ⟨rest⟩, true, some (k, k.length),
        some ⟨some (.cell .objNextSlots si.2), none⟩)
  | _, _, _, _ => (st, iter, false, none, none)

/-! ### Utilities (api.cpp `fj_minify`, `fj_validate`) -/

/-- api.cpp `fj_minify`: `simdjson::minify(json, len, json, *out_len)` is
a black box passed in as `em`, returning (engine error, rewritten buffer,
written length); the wrapper maps the error.  The null-argument guard
leaves the buffer and the out-length untouched. -/
def fj_minify (em : List Nat → Nat → Nat × List Nat × Nat) (json : Option (List Nat))
    (len : Nat) (outLenValid : Bool) : Nat × Option (List Nat) × Option Nat :=
  match json, outLenValid with
  | some buf, true =>
    let r := em buf len
    (map_error r.1, some r.2.1, some r.2.2)
  | _, _ => (FJ_ERROR_UNINITIALIZED, json, none)

/-- api.cpp `fj_validate`: parses with a fresh engine parser (black box
`ev` returning the engine error code) and maps the error. -/
def fj_validate (ev : List Nat → Nat → Nat) (json : Option (List Nat)) (len : Nat) : Nat :=
  match json with
  | some js => map_error (ev js len)
  | none => FJ_ERROR_UNINITIALIZED

/-! ### Iterator runs

`arrIterTrace st it k` performs `k` consecutive `fj_array_iter_next` calls
(all arguments valid) and records, per call, the returned continuation flag
and the element the written value's `impl` pointer dereferences to at that
moment; `objIterTrace` likewise records the key view as well. -/

def arrIterTrace : ThreadState → fj_array_iter_s → Nat → List (Bool × Option Elem)
  | _, _, 0 => []
  | st, it, k + 1 =>
    let r := fj_array_iter_next st (some it) true
    (r.2.2.1, r.2.2.2.bind fun w => w.impl.map (derefElem r.1)) ::
      arrIterTrace r.1 (r.2.1.getD it) k

def objIterTrace : ThreadState → fj_object_iter_s → Nat →
    List (Bool × Option (String × Nat) × Option Elem)
  | _, _, 0 => []
  | st, it, k + 1 =>
    let r := fj_object_iter_next st (some it) true true true
    (r.2.2.1, r.2.2.2.1, r.2.2.2.2.bind fun w => w.impl.map (derefElem r.1)) ::
      objIterTrace r.1 (r.2.1.getD it) k

/-! ### Helper lemmas -/

theorem Elem.get_object_cases (el : Elem) :
    el.get_object = .error INCORRECT_TYPE ∨ ∃ fs, el.get_object = .ok fs := by
  cases el <;> simp [Elem.get_object]

theorem Elem.get_array_cases (el : Elem) :
    el.get_array = .error INCORRECT_TYPE ∨ ∃ xs, el.get_array = .ok xs := by
  cases el <;> simp [Elem.get_array]

theorem objLookup_cases (fs : List (String × Elem)) (k : String) :
    objLookup fs k = .error NO_SUCH_FIELD ∨ ∃ e, objLookup fs k = .ok e := by
  induction fs with
  | nil => exact Or.inl rfl
  | cons p rest ih =>
    obtain ⟨k', e'⟩ := p
    by_cases h : k' = k
    · exact Or.inr ⟨e', by simp [objLookup, h]⟩
    · simpa [objLookup, h] using ih

theorem objLookup_not_mem (fs : List (String × Elem)) (k : String)
    (h : k ∉ fs.map Prod.fst) : objLookup fs k = .error NO_SUCH_FIELD := by
  induction fs with
  | nil => rfl
  | cons p rest ih =>
    obtain ⟨k', e'⟩ := p
    simp only [List.map_cons, List.mem_cons] at h
    push_neg at h
    simpa [objLookup, Ne.symm h.1] using ih h.2

theorem arrayAt_cases (xs : List Elem) (i : Nat) :
    arrayAt xs i = .error INDEX_OUT_OF_BOUNDS ∨ ∃ e, arrayAt xs i = .ok e := by
  unfold arrayAt
  cases xs.get? i with
  | none => exact Or.inl rfl
  | some e => exact Or.inr ⟨e, rfl⟩

theorem SlotPool.store_cursor (p : SlotPool) (e : Elem) :
    (p.store e).1.cursor = (p.store e).2 := rfl

theorem SlotPool.store_idx_val (p : SlotPool) (e : Elem) :
    ((p.store e).2 : Fin 256).val = (p.cursor.val + 1) % 256 := rfl

theorem SlotPool.store_read (p : SlotPool) (e : Elem) :
    (p.store e).1.slots (p.store e).2 = e := by
  simp [SlotPool.store]

theorem SlotPool.storeMany_preserved (es : List Elem) : ∀ (p : SlotPool) (i : Fin 256),
    (∀ j, j < es.length → (p.cursor.val + 1 + j) % 256 ≠ i.val) →
    (p.storeMany es).slots i = p.slots i := by
  induction es with
  | nil => intro p i _; rfl
  | cons e es ih =>
    intro p i h
    show ((p.store e).1.storeMany es).slots i = p.slots i
    rw [ih]
    · have h0 := h 0 (by simp)
      have hne : (p.store e).2 ≠ i := by
        intro hcon
        apply h0
        rw [← hcon, SlotPool.store_idx_val]
      show (Function.update p.slots (p.store e).2 e) i = p.slots i
      exact Function.update_noteq (fun hc => hne hc.symm) e p.slots
    · intro j hj
      have hj1 := h (j + 1) (by simpa using Nat.succ_lt_succ hj)
      rw [SlotPool.store_cursor, SlotPool.store_idx_val]
      omega

/-- The bounded-lifetime guarantee of one ring: the cell written by a
derivation still holds its element after any further `es.length ≤ 255`
derivations into the same ring. -/
theorem SlotPool.store_valid_until_wrap (p : SlotPool) (e : Elem) (es : List Elem)
    (h : es.length ≤ 255) :
    ((p.store e).1.storeMany es).slots (p.store e).2 = e := by
  rw [SlotPool.storeMany_preserved]
  · exact SlotPool.store_read p e
  · intro j hj
    rw [SlotPool.store_cursor, SlotPool.store_idx_val]
    omega

theorem ThreadState.storeIn_idx_val (st : ThreadState) (pid : PoolId) (e : Elem) :
    (st.storeIn pid e).2.val = ((st.pool pid).cursor.val + 1) % 256 := by
  cases pid <;> rfl

theorem ThreadState.storeIn_own (st : ThreadState) (pid : PoolId) (e : Elem) :
    ((st.storeIn pid e).1).pool pid = ((st.pool pid).store e).1 := by
  cases pid <;> rfl

theorem ThreadState.storeIn_other (st : ThreadState) (pid pid' : PoolId) (e : Elem)
    (h : pid' ≠ pid) : ((st.storeIn pid e).1).pool pid' = st.pool pid' := by
  cases pid <;> cases pid' <;> first | rfl | exact absurd rfl h

theorem ThreadState.storeIn_read (st : ThreadState) (pid : PoolId) (e : Elem) :
    (((st.storeIn pid e).1).pool pid).slots (st.storeIn pid e).2 = e := by
  have h := SlotPool.store_read (st.pool pid) e
  cases pid <;> exact h

/-! ### Concrete data used by witnesses and counterexamples -/

/-- A document whose root is the object `{"a": 1}`. -/
def docObjA : fj_document_s := ⟨Elem.obj [("a", Elem.int64 1)], FJ_SUCCESS⟩

/-- A document whose root is the array `[2]`. -/
def docArrB : fj_document_s := ⟨Elem.arr [Elem.int64 2], FJ_SUCCESS⟩

def vObjA : fj_value := fj_document_root (some docObjA)

def vArrB : fj_value := fj_document_root (some docArrB)

/-- The thread state after one successful field lookup on `vObjA`. -/
def st1 : ThreadState := (fj_value_get_field ThreadState.init vObjA (some "a") true).1

/-- An engine whose every parse succeeds with a null root. -/
def demoParser : fj_parser_s := ⟨fun _ _ => .res SUCCESS Elem.null⟩

/-! ### C8 -/

/-- C8: `fj_parser_parse_padded` returns exactly the same error code and
document as `fj_parser_parse` on the same arguments. -/
theorem parse_padded_eq_parse (p : Option fj_parser_s) (json : Option (List Nat))
    (len : Nat) (docValid : Bool) (oldDoc : Option fj_document_s) :
    fj_parser_parse_padded p json len docValid oldDoc
      = fj_parser_parse p json len docValid oldDoc := rfl

/-! ### C5 -/

theorem fj_error_message_above (k : Nat) (h : 30 < k) :
    fj_error_message k = "Unknown error" := by
  unfold fj_error_message
  exact if_pos (Or.inr h)

/-- C5: the error mapping is total (`map_error` sends every engine code to
one value of the public enumeration and every unnamed code to
`FJ_ERROR_UNKNOWN`), and `fj_error_message` returns a fixed non-empty
static string for every kind, the Unknown message for everything outside
the enumeration. -/
theorem error_mapping_total (e k : Nat) :
    map_error e ∈ fjErrorKinds
  ∧ (e ∉ engineCodes → map_error e = FJ_ERROR_UNKNOWN)
  ∧ fj_error_message k ≠ ""
  ∧ fj_error_message FJ_ERROR_UNKNOWN = "Unknown error"
  ∧ (k ∉ fjErrorKinds → fj_error_message k = "Unknown error") := by
  refine ⟨?_, ?_, ?_, rfl, ?_⟩
  · by_cases he : e < 31
    · rw [map_error_below e he]
      exact List.mem_append_left _ (List.mem_range.mpr he)
    · rw [map_error_above e (by omega)]
      simp [fjErrorKinds]
  · intro hne
    have : ¬ e < 31 := fun hlt => hne (List.mem_range.mpr hlt)
    exact map_error_above e (by omega)
  · by_cases hk : k < 31
    · have h : ∀ x < 31, fj_error_message x ≠ "" := by decide
      exact h k hk
    · rw [fj_error_message_above k (by omega)]
      decide
  · intro hk
    have h30 : 30 < k := by
      by_contra hle
      exact hk (List.mem_append_left _ (List.mem_range.mpr (by omega)))
    exact fj_error_message_above k h30

/-- C5 witness: the mapping and the message lookup at the concrete unmapped
engine code 100 and the concrete out-of-enumeration kind 40. -/
theorem error_mapping_total_witness :
    map_error 100 ∈ fjErrorKinds
  ∧ map_error 100 = FJ_ERROR_UNKNOWN
  ∧ fj_error_message 40 = "Unknown error" :=
  ⟨(error_mapping_total 100 40).1,
   (error_mapping_total 100 40).2.1 (by decide),
   (error_mapping_total 100 40).2.2.2.2 (by decide)⟩

/-! ### C10 -/

/-- C10: `fj_value_type` is total; a null value handle and an element whose
engine tag is unrecognized both map to `FJ_TYPE_NULL`, exactly as a genuine
JSON null does, so the three are indistinguishable by type query. -/
theorem value_type_null_indistinguishable (st : ThreadState) (v : fj_value) (t : Nat) :
    (v.impl = none → fj_value_type st v = FJ_TYPE_NULL)
  ∧ (∀ r, v.impl = some r → derefElem st r = Elem.null → fj_value_type st v = FJ_TYPE_NULL)
  ∧ (t ∉ elementTypeCodes → map_type t = FJ_TYPE_NULL) := by
  refine ⟨?_, ?_, map_type_unknown t⟩
  · intro h
    simp [fj_value_type, h]
  · intro r hr hd
    simp [fj_value_type, hr, hd, Elem.typeCode]
    rfl

/-- C10 witness: the null handle and the concrete unrecognized tag 0. -/
theorem value_type_null_indistinguishable_witness :
    fj_value_type ThreadState.init ⟨none, none⟩ = FJ_TYPE_NULL
  ∧ map_type 0 = FJ_TYPE_NULL :=
  ⟨(value_type_null_indistinguishable ThreadState.init ⟨none, none⟩ 0).1 rfl,
   (value_type_null_indistinguishable ThreadState.init ⟨none, none⟩ 0).2.2 (by decide)⟩

/-! ### C9 -/

/-- C9: a parse call into a fresh (null) document cell that leaves a
non-null document there always leaves one whose stored error is
`FJ_SUCCESS` (the only construction path sets the error slot to Success),
so `fj_document_error` on it returns Success. -/
theorem document_error_always_success (p : Option fj_parser_s) (json : Option (List Nat))
    (len : Nat) (dv : Bool) (e : Nat) (d : fj_document_s)
    (h : fj_parser_parse p json len dv none = (e, some d)) :
    d.error = FJ_SUCCESS ∧ fj_document_error (some d) = FJ_SUCCESS := by
  cases p with
  | none => simp [fj_parser_parse] at h
  | some pp =>
    cases json with
    | none => simp [fj_parser_parse] at h
    | some js =>
      cases dv with
      | false => simp [fj_parser_parse] at h
      | true =>
        simp only [fj_parser_parse] at h
        rcases heng : pp.engine js len with ⟨code, root⟩ | _
        · rw [heng] at h
          by_cases hc : code = SUCCESS
          · simp only [hc, ne_eq, not_true_eq_false, if_false, reduceIte] at h
            obtain ⟨-, h2⟩ := Prod.mk.injEq .. ▸ h
            obtain rfl := Option.some.injEq .. ▸ h2
            exact ⟨rfl, rfl⟩
          · simp [hc] at h
        · rw [heng] at h
          simp at h

/-- C9 witness: a concrete successful parse and the document it constructs. -/
theorem document_error_always_success_witness :
    (⟨Elem.null, FJ_SUCCESS⟩ : fj_document_s).error = FJ_SUCCESS
  ∧ fj_document_error (some ⟨Elem.null, FJ_SUCCESS⟩) = FJ_SUCCESS :=
  document_error_always_success (some demoParser) (some []) 0 true FJ_SUCCESS
    ⟨Elem.null, FJ_SUCCESS⟩ rfl

/-! ### C3 -/

/-- C3 counterexample: with a null parser but a valid non-null output cell
holding a previous document, `fj_parser_parse` returns a non-Success error
while the output document handle is left non-null -- the claim's "error
implies null output handle" fails on the argument-guard path, which
returns `FJ_ERROR_UNINITIALIZED` without writing the out-parameter. -/
theorem parse_not_atomic_counterexample :
    fj_parser_parse none (some []) 0 true (some docObjA)
      = (FJ_ERROR_UNINITIALIZED, some docObjA)
  ∧ FJ_ERROR_UNINITIALIZED ≠ FJ_SUCCESS :=
  ⟨rfl, by decide⟩

/-- C3 amended: when parser, input and out-pointer are all non-null, parse
is atomic -- either Success with a fully constructed document written to
the cell, or a non-Success error with the cell set to null; when any of
the three is null, `FJ_ERROR_UNINITIALIZED` is returned and the cell is
left untouched. -/
theorem parse_atomic_with_valid_args (pp : fj_parser_s) (js : List Nat) (len : Nat)
    (old : Option fj_document_s) :
    ((∃ d, fj_parser_parse (some pp) (some js) len true old = (FJ_SUCCESS, some d)
        ∧ d.error = FJ_SUCCESS)
      ∨ (∃ e, fj_parser_parse (some pp) (some js) len true old = (e, none)
        ∧ e ≠ FJ_SUCCESS))
  ∧ fj_parser_parse none (some js) len true old = (FJ_ERROR_UNINITIALIZED, old)
  ∧ fj_parser_parse (some pp) none len true old = (FJ_ERROR_UNINITIALIZED, old)
  ∧ fj_parser_parse (some pp) (some js) len false old = (FJ_ERROR_UNINITIALIZED, old) := by
  refine ⟨?_, rfl, rfl, rfl⟩
  rcases heng : pp.engine js len with ⟨code, root⟩ | _
  · by_cases hc : code = SUCCESS
    · exact Or.inl ⟨⟨root, FJ_SUCCESS⟩, by simp [fj_parser_parse, heng, hc], rfl⟩
    · refine Or.inr ⟨map_error code, by simp [fj_parser_parse, heng, hc], ?_⟩
      intro hz
      exact hc ((map_error_eq_success_iff code).mp hz)
  · exact Or.inr ⟨FJ_ERROR_UNEXPECTED_ERROR, by simp [fj_parser_parse, heng], by decide⟩

/-! ### C2 -/

/-- C2 counterexample: `fj_array_iter_next` successfully derives a value
(the continuation flag is `true`) whose `doc` back-reference is null --
the source sets `out->doc = nullptr` -- so not every successfully derived
value carries a non-null owning-document reference. -/
theorem iter_value_doc_null_counterexample :
    (fj_array_iter_next ThreadState.init (some ⟨[Elem.null]⟩) true).2.2.1 = true
  ∧ (fj_array_iter_next ThreadState.init (some ⟨[Elem.null]⟩) true).2.2.2
      = some ⟨some (ElemRef.cell PoolId.arrNextSlots 1), none⟩
  ∧ ((fj_array_iter_next ThreadState.init (some ⟨[Elem.null]⟩) true).2.2.2).map fj_value.doc
      = some none :=
  ⟨rfl, rfl, rfl⟩

/-- C2 amended: every value is the `(impl, doc)` pair; the root value and
the values derived by field and index lookup carry their source's document
reference (non-null whenever the source's is), but the values handed out
by the two iterator `next` calls carry a null document reference. -/
theorem value_doc_backref (st : ThreadState) (v : fj_value) (d : Option fj_document_s)
    (k : String) (idx kl : Nat) (ai : fj_array_iter_s) (oi : fj_object_iter_s) :
    (fj_document_root d).doc = d
  ∧ (∀ w, (fj_value_get_field st v (some k) true).2.2 = some w → w.doc = v.doc)
  ∧ (∀ w, (fj_value_get_field_len st v (some k) kl true).2.2 = some w → w.doc = v.doc)
  ∧ (∀ w, (fj_value_get_index st v idx true).2.2 = some w → w.doc = v.doc)
  ∧ (∀ w, (fj_array_iter_next st (some ai) true).2.2.2 = some w → w.doc = none)
  ∧ (∀ w, (fj_object_iter_next st (some oi) true true true).2.2.2.2 = some w → w.doc = none) := by
  refine ⟨rfl, ?_, ?_, ?_, ?_, ?_⟩
  · intro w h
    rcases hv : v.impl with _ | r
    · simp [fj_value_get_field, hv] at h
    · rcases Elem.get_object_cases (derefElem st r) with hob | ⟨fs, hob⟩
      · simp [fj_value_get_field, hv, hob] at h
      · rcases objLookup_cases fs k with hl | ⟨fe, hl⟩
        · simp [fj_value_get_field, hv, hob, hl] at h
        · simp only [fj_value_get_field, hv, hob, hl, Option.some.injEq] at h
          rw [← h]
  · intro w h
    rcases hv : v.impl with _ | r
    · simp [fj_value_get_field_len, hv] at h
    · rcases Elem.get_object_cases (derefElem st r) with hob | ⟨fs, hob⟩
      · simp [fj_value_get_field_len, hv, hob] at h
      · rcases objLookup_cases fs (k.take kl) with hl | ⟨fe, hl⟩
        · simp [fj_value_get_field_len, hv, hob, hl] at h
        · simp only [fj_value_get_field_len, hv, hob, hl, Option.some.injEq] at h
          rw [← h]
  · intro w h
    rcases hv : v.impl with _ | r
    · simp [fj_value_get_index, hv] at h
    · rcases Elem.get_array_cases (derefElem st r) with har | ⟨xs, har⟩
      · simp [fj_value_get_index, hv, har] at h
      · rcases arrayAt_cases xs idx with hat | ⟨fe, hat⟩
        · simp [fj_value_get_index, hv, har, hat] at h
        · simp only [fj_value_get_index, hv, har, hat, Option.some.injEq] at h
          rw [← h]
  · intro w h
    rcases ai with ⟨_ | ⟨e, rest⟩⟩
    · simp [fj_array_iter_next] at h
    · simp only [fj_array_iter_next, Option.some.injEq] at h
      rw [← h]
  · intro w h
    rcases oi with ⟨_ | ⟨⟨ky, e⟩, rest⟩⟩
    · simp [fj_object_iter_next] at h
    · simp only [fj_object_iter_next, Option.some.injEq] at h
      rw [← h]

/-- C2 witness: a concrete field lookup whose derived value carries the
source's document reference. -/
theorem value_doc_backref_witness :
    (⟨some (ElemRef.cell PoolId.fieldSlots 1), some docObjA⟩ : fj_value).doc = vObjA.doc :=
  (value_doc_backref ThreadState.init vObjA (some docObjA) "a" 0 0 ⟨[]⟩ ⟨[]⟩).2.1
    ⟨some (ElemRef.cell PoolId.fieldSlots 1), some docObjA⟩ rfl

/-! ### C6 -/

/-- C6: `fj_value_has_field` returns true exactly when `fj_value_get_field`
(with a valid out-parameter) returns `FJ_SUCCESS`; on an object that lacks
the key, `fj_value_get_field` returns `FJ_ERROR_NO_SUCH_FIELD` and
`fj_value_has_field` returns false. -/
theorem hasField_iff_getField (st : ThreadState) (v : fj_value) (key : Option String)
    (k : String) (fs : List (String × Elem)) :
    (fj_value_has_field st v key = true
      ↔ (fj_value_get_field st v key true).2.1 = FJ_SUCCESS)
  ∧ (∀ r, v.impl = some r → derefElem st r = Elem.obj fs → k ∉ fs.map Prod.fst →
      (fj_value_get_field st v (some k) true).2.1 = FJ_ERROR_NO_SUCH_FIELD
      ∧ fj_value_has_field st v (some k) = false) := by
  constructor
  · rcases hv : v.impl with _ | r
    · simp [fj_value_has_field, fj_value_get_field, hv, FJ_ERROR_UNINITIALIZED, FJ_SUCCESS]
    · cases key with
      | none =>
        simp [fj_value_has_field, fj_value_get_field, hv, FJ_ERROR_UNINITIALIZED, FJ_SUCCESS]
      | some kk =>
        rcases Elem.get_object_cases (derefElem st r) with hob | ⟨gs, hob⟩
        · simp [fj_value_has_field, fj_value_get_field, hv, hob,
            map_error_eq_success_iff, INCORRECT_TYPE, SUCCESS]
        · rcases objLookup_cases gs kk with hl | ⟨fe, hl⟩
          · simp [fj_value_has_field, fj_value_get_field, hv, hob, hl,
              map_error_eq_success_iff, NO_SUCH_FIELD, SUCCESS]
          · simp [fj_value_has_field, fj_value_get_field, hv, hob, hl]
  · intro r hr hd hmem
    have hl := objLookup_not_mem fs k hmem
    constructor
    · simp only [fj_value_get_field, hr, hd, Elem.get_object, hl]
      decide
    · simp [fj_value_has_field, hr, hd, Elem.get_object, hl]

/-- C6 witness: the concrete object `{"a": 1}` and the absent key `"c"`. -/
theorem hasField_iff_getField_witness :
    (fj_value_get_field ThreadState.init vObjA (some "c") true).2.1 = FJ_ERROR_NO_SUCH_FIELD
  ∧ fj_value_has_field ThreadState.init vObjA (some "c") = false :=
  (hasField_iff_getField ThreadState.init vObjA none "c" [("a", Elem.int64 1)]).2
    (ElemRef.docRoot docObjA) rfl rfl (by decide)

/-! ### C4 -/

theorem arrIterTrace_spec : ∀ (k : Nat) (st : ThreadState) (xs : List Elem),
    arrIterTrace st ⟨xs⟩ k
      = (xs.take k).map (fun e => (true, some e))
        ++ List.replicate (k - xs.length) (false, none) := by
  intro k
  induction k with
  | zero => intro st xs; simp [arrIterTrace]
  | succ k ih =>
    intro st xs
    cases xs with
    | nil =>
      simp [arrIterTrace, fj_array_iter_next, ih, List.replicate_succ]
    | cons x rest =>
      simp [arrIterTrace, fj_array_iter_next, derefElem, ih,
        ThreadState.storeIn_read, Nat.succ_sub_succ]

theorem objIterTrace_spec : ∀ (k : Nat) (st : ThreadState) (fs : List (String × Elem)),
    objIterTrace st ⟨fs⟩ k
      = (fs.take k).map (fun p => (true, some (p.1, p.1.length), some p.2))
        ++ List.replicate (k - fs.length) (false, none, none) := by
  intro k
  induction k with
  | zero => intro st fs; simp [objIterTrace]
  | succ k ih =>
    intro st fs
    cases fs with
    | nil =>
      simp [objIterTrace, fj_object_iter_next, ih, List.replicate_succ]
    | cons p rest =>
      obtain ⟨ky, e⟩ := p
      simp [objIterTrace, fj_object_iter_next, derefElem, ih,
        ThreadState.storeIn_read, Nat.succ_sub_succ]

/-- C4: an iterator created on an array (object) of size n answers `next`
with the continuation flag `true` exactly n times -- yielding the children
in order -- and with `false` on every call after the n-th, never moving
backward; creation on a container value captures exactly its children, and
`size` reports n. -/
theorem iter_next_exactly_size (st : ThreadState) (v : fj_value) (xs : List Elem)
    (fs : List (String × Elem)) (k : Nat) :
    (arrIterTrace st ⟨xs⟩ k
      = (xs.take k).map (fun e => (true, some e))
        ++ List.replicate (k - xs.length) (false, none))
  ∧ (objIterTrace st ⟨fs⟩ k
      = (fs.take k).map (fun p => (true, some (p.1, p.1.length), some p.2))
        ++ List.replicate (k - fs.length) (false, none, none))
  ∧ (∀ r, v.impl = some r → derefElem st r = Elem.arr xs →
      fj_array_iter_new st v true = (FJ_SUCCESS, some ⟨xs⟩)
      ∧ fj_value_array_size st v true = (FJ_SUCCESS, some xs.length))
  ∧ (∀ r, v.impl = some r → derefElem st r = Elem.obj fs →
      fj_object_iter_new st v true = (FJ_SUCCESS, some ⟨fs⟩)
      ∧ fj_value_object_size st v true = (FJ_SUCCESS, some fs.length)) := by
  refine ⟨arrIterTrace_spec k st xs, objIterTrace_spec k st fs, ?_, ?_⟩
  · intro r hr hd
    constructor <;> simp [fj_array_iter_new, fj_value_array_size, hr, hd, Elem.get_array]
  · intro r hr hd
    constructor <;> simp [fj_object_iter_new, fj_value_object_size, hr, hd, Elem.get_object]

/-- C4 witness: iterator creation and size on the concrete array `[2]`. -/
theorem iter_next_exactly_size_witness :
    fj_array_iter_new ThreadState.init vArrB true = (FJ_SUCCESS, some ⟨[Elem.int64 2]⟩)
  ∧ fj_value_array_size ThreadState.init vArrB true
      = (FJ_SUCCESS, some [Elem.int64 2].length) :=
  (iter_next_exactly_size ThreadState.init vArrB [Elem.int64 2] [] 0).2.2.1
    (ElemRef.docRoot docArrB) rfl rfl

/-! ### C7 -/

/-- C7: every fallible operation rejects a null handle or a null required
out-parameter with `FJ_ERROR_UNINITIALIZED` before any engine logic runs:
each equation below holds for every engine behaviour (the engine enters
only as the quantified parser/minifier/validator), every thread state (all
returned unchanged) and every remaining argument, and all the embedded
operations are total functions, so no call raises an exception. -/
theorem null_args_rejected_uninitialized (st : ThreadState) (p : fj_parser_s)
    (js : List Nat) (len : Nat) (old : Option fj_document_s) (dv : Bool)
    (v : fj_value) (d : Option fj_document_s) (key : Option String) (kl idx : Nat)
    (lv : Bool) (em : List Nat → Nat → Nat × List Nat × Nat)
    (ev : List Nat → Nat → Nat) :
    fj_parser_parse none (some js) len dv old = (FJ_ERROR_UNINITIALIZED, old)
  ∧ fj_parser_parse (some p) none len dv old = (FJ_ERROR_UNINITIALIZED, old)
  ∧ fj_parser_parse (some p) (some js) len false old = (FJ_ERROR_UNINITIALIZED, old)
  ∧ fj_document_error none = FJ_ERROR_UNINITIALIZED
  ∧ fj_value_get_bool st ⟨none, d⟩ dv = (FJ_ERROR_UNINITIALIZED, none)
  ∧ fj_value_get_bool st v false = (FJ_ERROR_UNINITIALIZED, none)
  ∧ fj_value_get_int64 st ⟨none, d⟩ dv = (FJ_ERROR_UNINITIALIZED, none)
  ∧ fj_value_get_int64 st v false = (FJ_ERROR_UNINITIALIZED, none)
  ∧ fj_value_get_uint64 st ⟨none, d⟩ dv = (FJ_ERROR_UNINITIALIZED, none)
  ∧ fj_value_get_uint64 st v false = (FJ_ERROR_UNINITIALIZED, none)
  ∧ fj_value_get_double st ⟨none, d⟩ dv = (FJ_ERROR_UNINITIALIZED, none)
  ∧ fj_value_get_double st v false = (FJ_ERROR_UNINITIALIZED, none)
  ∧ fj_value_get_string st ⟨none, d⟩ dv lv = (FJ_ERROR_UNINITIALIZED, none)
  ∧ fj_value_get_string st v false lv = (FJ_ERROR_UNINITIALIZED, none)
  ∧ fj_value_get_string st v dv false = (FJ_ERROR_UNINITIALIZED, none)
  ∧ fj_value_get_field st ⟨none, d⟩ key dv = (st, FJ_ERROR_UNINITIALIZED, none)
  ∧ fj_value_get_field st v none dv = (st, FJ_ERROR_UNINITIALIZED, none)
  ∧ fj_value_get_field st v key false = (st, FJ_ERROR_UNINITIALIZED, none)
  ∧ fj_value_get_field_len st ⟨none, d⟩ key kl dv = (st, FJ_ERROR_UNINITIALIZED, none)
  ∧ fj_value_get_field_len st v none kl dv = (st, FJ_ERROR_UNINITIALIZED, none)
  ∧ fj_value_get_field_len st v key kl false = (st, FJ_ERROR_UNINITIALIZED, none)
  ∧ fj_value_object_size st ⟨none, d⟩ dv = (FJ_ERROR_UNINITIALIZED, none)
  ∧ fj_value_object_size st v false = (FJ_ERROR_UNINITIALIZED, none)
  ∧ fj_value_get_index st ⟨none, d⟩ idx dv = (st, FJ_ERROR_UNINITIALIZED, none)
  ∧ fj_value_get_index st v idx false = (st, FJ_ERROR_UNINITIALIZED, none)
  ∧ fj_value_array_size st ⟨none, d⟩ dv = (FJ_ERROR_UNINITIALIZED, none)
  ∧ fj_value_array_size st v false = (FJ_ERROR_UNINITIALIZED, none)
  ∧ fj_array_iter_new st ⟨none, d⟩ dv = (FJ_ERROR_UNINITIALIZED, none)
  ∧ fj_array_iter_new st v false = (FJ_ERROR_UNINITIALIZED, none)
  ∧ fj_object_iter_new st ⟨none, d⟩ dv = (FJ_ERROR_UNINITIALIZED, none)
  ∧ fj_object_iter_new st v false = (FJ_ERROR_UNINITIALIZED, none)
  ∧ fj_minify em none len dv = (FJ_ERROR_UNINITIALIZED, none, none)
  ∧ fj_minify em (some js) len false = (FJ_ERROR_UNINITIALIZED, some js, none)
  ∧ fj_validate ev none len = FJ_ERROR_UNINITIALIZED := by
  obtain ⟨iv, dc⟩ := v
  refine ⟨rfl, ?_, rfl, rfl, ?_, ?_, ?_, ?_, ?_, ?_, ?_, ?_, ?_, ?_, ?_, ?_, ?_, ?_,
    ?_, ?_, ?_, ?_, ?_, ?_, ?_, ?_, ?_, ?_, ?_, ?_, ?_, ?_, ?_, rfl⟩ <;>
    first
      | (cases dv <;> rfl)
      | (cases iv <;> rfl)
      | (cases iv <;> cases lv <;> rfl)
      | (cases iv <;> cases dv <;> rfl)
      | (cases iv <;> cases key <;> rfl)

/-! ### C1 -/

/-- C1 counterexample: two consecutive derivations of different kinds (a
field lookup, then an index lookup in the resulting thread state) return
references into two different rings -- both at cell index 1 -- and the
field lookup leaves the index ring's cursor at 0 while the index lookup
leaves the field ring's cursor at 1.  There is no single shared 256-cell
ring with one cursor that every derivation advances: each deriving
function has its own function-local static ring. -/
theorem slot_ring_not_shared_counterexample :
    (fj_value_get_field ThreadState.init vObjA (some "a") true).2.2
      = some ⟨some (ElemRef.cell PoolId.fieldSlots 1), some docObjA⟩
  ∧ (fj_value_get_index st1 vArrB 0 true).2.2
      = some ⟨some (ElemRef.cell PoolId.indexSlots 1), some docArrB⟩
  ∧ PoolId.fieldSlots ≠ PoolId.indexSlots
  ∧ st1.getIndexPool.cursor.val = 0
  ∧ st1.getFieldPool.cursor.val = 1
  ∧ (fj_value_get_index st1 vArrB 0 true).1.getFieldPool.cursor.val = 1
  ∧ (fj_value_get_index st1 vArrB 0 true).1.getIndexPool.cursor.val = 1 :=
  ⟨rfl, rfl, by decide, rfl, rfl, rfl, rfl⟩

/-- C1 amended: each of the five deriving functions (field lookup, field
lookup with length, index lookup, array-iterator next, object-iterator
next) has its own per-thread ring of 256 cells with its own cursor.  Every
successful derivation stores through its own ring (`storeIn` with its own
`PoolId`) and returns a reference to exactly the written cell; a store
into ring `pid` writes the cell after that ring's cursor modulo 256,
leaves every other ring untouched, and the written cell still holds its
element after up to 255 further derivations through the same ring -- so a
returned reference remains valid until 256 further derivations by the
same function occur on the same thread. -/
theorem slot_rings_per_function (st : ThreadState) (v : fj_value) (k : String)
    (kl idx : Nat) (ai : fj_array_iter_s) (oi : fj_object_iter_s)
    (p : SlotPool) (e : Elem) (es : List Elem) (pid pid' : PoolId) :
    ((fj_value_get_field st v (some k) true).2.1 = FJ_SUCCESS →
      ∃ fe, (fj_value_get_field st v (some k) true).1 = (st.storeIn .fieldSlots fe).1
        ∧ (fj_value_get_field st v (some k) true).2.2
            = some ⟨some (.cell .fieldSlots (st.storeIn .fieldSlots fe).2), v.doc⟩)
  ∧ ((fj_value_get_field_len st v (some k) kl true).2.1 = FJ_SUCCESS →
      ∃ fe, (fj_value_get_field_len st v (some k) kl true).1
            = (st.storeIn .fieldLenSlots fe).1
        ∧ (fj_value_get_field_len st v (some k) kl true).2.2
            = some ⟨some (.cell .fieldLenSlots (st.storeIn .fieldLenSlots fe).2), v.doc⟩)
  ∧ ((fj_value_get_index st v idx true).2.1 = FJ_SUCCESS →
      ∃ fe, (fj_value_get_index st v idx true).1 = (st.storeIn .indexSlots fe).1
        ∧ (fj_value_get_index st v idx true).2.2
            = some ⟨some (.cell .indexSlots (st.storeIn .indexSlots fe).2), v.doc⟩)
  ∧ ((fj_array_iter_next st (some ai) true).2.2.1 = true →
      ∃ fe, (fj_array_iter_next st (some ai) true).1 = (st.storeIn .arrNextSlots fe).1
        ∧ (fj_array_iter_next st (some ai) true).2.2.2
            = some ⟨some (.cell .arrNextSlots (st.storeIn .arrNextSlots fe).2), none⟩)
  ∧ ((fj_object_iter_next st (some oi) true true true).2.2.1 = true →
      ∃ fe, (fj_object_iter_next st (some oi) true true true).1
            = (st.storeIn .objNextSlots fe).1
        ∧ (fj_object_iter_next st (some oi) true true true).2.2.2.2
            = some ⟨some (.cell .objNextSlots (st.storeIn .objNextSlots fe).2), none⟩)
  ∧ (st.storeIn pid e).2.val = ((st.pool pid).cursor.val + 1) % 256
  ∧ ((st.storeIn pid e).1).pool pid = ((st.pool pid).store e).1
  ∧ (pid' ≠ pid → ((st.storeIn pid e).1).pool pid' = st.pool pid')
  ∧ (((st.storeIn pid e).1).pool pid).slots (st.storeIn pid e).2 = e
  ∧ (es.length ≤ 255 → ((p.store e).1.storeMany es).slots (p.store e).2 = e) := by
  refine ⟨?_, ?_, ?_, ?_, ?_, ThreadState.storeIn_idx_val st pid e,
    ThreadState.storeIn_own st pid e, ThreadState.storeIn_other st pid pid' e,
    ThreadState.storeIn_read st pid e, SlotPool.store_valid_until_wrap p e es⟩
  · intro hs
    rcases hv : v.impl with _ | r
    · simp [fj_value_get_field, hv, FJ_ERROR_UNINITIALIZED, FJ_SUCCESS] at hs
    · rcases Elem.get_object_cases (derefElem st r) with hob | ⟨fs, hob⟩
      · simp only [fj_value_get_field, hv, hob] at hs
        rw [map_error_eq_success_iff] at hs
        exact absurd hs (by decide)
      · rcases objLookup_cases fs k with hl | ⟨fe, hl⟩
        · simp only [fj_value_get_field, hv, hob, hl] at hs
          rw [map_error_eq_success_iff] at hs
          exact absurd hs (by decide)
        · exact ⟨fe, by simp [fj_value_get_field, hv, hob, hl],
            by simp [fj_value_get_field, hv, hob, hl]⟩
  · intro hs
    rcases hv : v.impl with _ | r
    · simp [fj_value_get_field_len, hv, FJ_ERROR_UNINITIALIZED, FJ_SUCCESS] at hs
    · rcases Elem.get_object_cases (derefElem st r) with hob | ⟨fs, hob⟩
      · simp only [fj_value_get_field_len, hv, hob] at hs
        rw [map_error_eq_success_iff] at hs
        exact absurd hs (by decide)
      · rcases objLookup_cases fs (k.take kl) with hl | ⟨fe, hl⟩
        · simp only [fj_value_get_field_len, hv, hob, hl] at hs
          rw [map_error_eq_success_iff] at hs
          exact absurd hs (by decide)
        · exact ⟨fe, by simp [fj_value_get_field_len, hv, hob, hl],
            by simp [fj_value_get_field_len, hv, hob, hl]⟩
  · intro hs
    rcases hv : v.impl with _ | r
    · simp [fj_value_get_index, hv, FJ_ERROR_UNINITIALIZED, FJ_SUCCESS] at hs
    · rcases Elem.get_array_cases (derefElem st r) with har | ⟨xs, har⟩
      · simp only [fj_value_get_index, hv, har] at hs
        rw [map_error_eq_success_iff] at hs
        exact absurd hs (by decide)
      · rcases arrayAt_cases xs idx with hat | ⟨fe, hat⟩
        · simp only [fj_value_get_index, hv, har, hat] at hs
          rw [map_error_eq_success_iff] at hs
          exact absurd hs (by decide)
        · exact ⟨fe, by simp [fj_value_get_index, hv, har, hat],
            by simp [fj_value_get_index, hv, har, hat]⟩
  · intro hs
    rcases ai with ⟨_ | ⟨x, rest⟩⟩
    · simp [fj_array_iter_next] at hs
    · exact ⟨x, rfl, rfl⟩
  · intro hs
    rcases oi with ⟨_ | ⟨⟨ky, x⟩, rest⟩⟩
    · simp [fj_object_iter_next] at hs
    · exact ⟨x, rfl, rfl⟩

/-- C1 witness: the field lookup on the concrete object `{"a": 1}` in the
fresh thread state stores through its own ring and returns the reference
to the written cell. -/
theorem slot_rings_per_function_witness :
    ∃ fe, (fj_value_get_field ThreadState.init vObjA (some "a") true).1
          = (ThreadState.init.storeIn .fieldSlots fe).1
      ∧ (fj_value_get_field ThreadState.init vObjA (some "a") true).2.2
          = some ⟨some (.cell .fieldSlots (ThreadState.init.storeIn .fieldSlots fe).2),
              vObjA.doc⟩ :=
  (slot_rings_per_function ThreadState.init vObjA "a" 0 0 ⟨[]⟩ ⟨[]⟩ SlotPool.init
    Elem.null [] PoolId.fieldSlots PoolId.fieldSlots).1 rfl

end Fastjsond
